import Mathlib

/-
Formal model of cf_clearance.py (CF-Clearance-Server).

The Python program is shallowly embedded: every fallible external call
(browser navigation, cookie reads, element enumeration, clicks, the
user-agent list fetch, solver construction, browser start/stop) is an
oracle value of type Except String _, wall-clock time is modelled as an
integer number of seconds threaded explicitly, and the two global
dictionaries (task_results, active_solvers) are modelled as association
lists respectively write traces.  Python's round(x, 3) of an integer
number of seconds is the identity and is dropped.
-/

namespace CF

/-- A cookie as reported by the browser capability (cookie.to_json());
only the fields the program reads are kept. -/
structure CookieJ where
  name : String
  value : String
deriving DecidableEq, Repr

/-- One value of task_results[task_id]: the dicts the program stores.
A missing dict key is `none`.  The "processing" dict has only status and
timestamp; the success dict has elapsed/cfClearance/userAgent/allCookies;
the error dict has reason/elapsed. -/
structure Entry where
  status : String
  reason : Option String := none
  elapsed : Option Int := none
  cfClearance : Option String := none
  userAgent : Option String := none
  allCookies : Option (List CookieJ) := none
  timestamp : Option Int := none
deriving DecidableEq, Repr

/-- status in {"success", "error"}: a terminal entry. -/
def isTerminal (e : Entry) : Bool :=
  e.status == "success" || e.status == "error"

/-- Status/result-shape consistency of a stored entry (the spec's
"Status consistency" property). -/
def entryConsistent (e : Entry) : Bool :=
  if e.status = "processing" then
    e.reason.isNone && e.elapsed.isNone && e.cfClearance.isNone
      && e.userAgent.isNone && e.allCookies.isNone
  else if e.status = "success" then
    e.reason.isNone && e.elapsed.isSome && e.cfClearance.isSome
      && e.userAgent.isSome && e.allCookies.isSome
  else if e.status = "error" then
    e.reason.isSome && e.elapsed.isSome && e.cfClearance.isNone
      && e.userAgent.isNone && e.allCookies.isNone
  else false

/-- The dict written at line 292: {"status": "processing", "timestamp": t}. -/
def procEntry (t : Int) : Entry :=
  { status := "processing", timestamp := some t }

/-- The error dict built at lines 214-218 / 223-227 of solve_cloudflare
(no timestamp yet; the supervisor adds it). -/
def errorResult (reason : String) (elapsed : Int) : Entry :=
  { status := "error", reason := some reason, elapsed := some elapsed }

/-- The success dict built at lines 205-211 of solve_cloudflare. -/
def successResult (elapsed : Int) (cfVal : String) (ua : String)
    (cookies : List CookieJ) : Entry :=
  { status := "success", elapsed := some elapsed, cfClearance := some cfVal,
    userAgent := some ua, allCookies := some cookies }

/-- extract_clearance_cookie: first cookie whose name is "cf_clearance"
(the Python for-loop returns the first match). -/
def extract_clearance_cookie (cookies : List CookieJ) : Option CookieJ :=
  cookies.find? (fun c => c.name == "cf_clearance")

/-- `charPrefix pat cs`: the character list `pat` is a prefix of `cs`. -/
def charPrefix : List Char → List Char → Bool
  | [], _ => true
  | _ :: _, [] => false
  | a :: pat, b :: cs => a == b && charPrefix pat cs

/-- `charSub pat cs`: `pat` occurs contiguously inside `cs`. -/
def charSub (pat : List Char) : List Char → Bool
  | [] => charPrefix pat []
  | c :: cs => charPrefix pat (c :: cs) || charSub pat cs

/-- Python's `"Chrome" in ua` (substring containment on characters). -/
def containsChrome (s : String) : Bool :=
  charSub "Chrome".data s.data

/-- Python's `s.startswith(pre)`. -/
def strStartsWith (s pre : String) : Bool :=
  charPrefix pre.data s.data

/-- get_chrome_user_agent: filter the latest-user-agents list to those
containing "Chrome", then random.choice.  The random draw is modelled by
an arbitrary index `pick` reduced mod the list length; random.choice on
an empty list raises IndexError, modelled as `none`. -/
def get_chrome_user_agent (agents : List String) (pick : Nat) : Option String :=
  let cs := agents.filter containsChrome
  cs.get? (pick % cs.length)

/-- Truthiness of an optional string parameter (`if not url:` in Python is
true for an absent parameter and for the empty string). -/
def strFalsy : Option String → Bool
  | none => true
  | some s => s.data.isEmpty

/-- The proxy-scheme test at lines 468-473. -/
def validProxy (p : String) : Bool :=
  strStartsWith p "http://" || strStartsWith p "https://"
    || strStartsWith p "socks4://" || strStartsWith p "socks5://"

/-- timeout = request.args.get('timeout', 60, type=int); if timeout > 120:
timeout = 120.  `none` stands for an absent (or unparsable) parameter. -/
def effective_timeout (t : Option Int) : Int :=
  let t0 := t.getD 60
  if t0 > 120 then 120 else t0

/-- Responses of the /solve endpoint (the JSON body reduced to the fields
the claims mention, paired with the HTTP code by constructor). -/
inductive SolveResp where
  | badReq (error : String)                 -- 400
  | tooMany (error : String)                -- 429
  | accepted (taskId : String)              -- 202
deriving DecidableEq, Repr

/-- The argument record of the asyncio.create_task(solve_cloudflare_task(...))
call issued by an accepted submission. -/
structure Scheduled where
  taskId : String
  url : String
  userAgentParam : Option String
  proxyParam : Option String
  timeout : Int
deriving DecidableEq, Repr

/-- The /solve handler (lines 450-509).  `activeCount` is len(active_solvers)
at handler time, `newId` the fresh uuid4 string.  The second component is
the task scheduled by asyncio.create_task, `none` when the request is
rejected (no task is created, nothing is ever inserted into
active_solvers for it). -/
def solve (url proxy user_agent : Option String) (timeoutArg : Option Int)
    (activeCount maxTasks : Nat) (newId : String) :
    SolveResp × Option Scheduled :=
  if strFalsy url then
    (.badReq "URL parameter is required", none)
  else if !strFalsy proxy && !validProxy (proxy.getD "") then
    (.badReq "Invalid proxy format. Must start with http://, https://, socks4:// or socks5://", none)
  else
    let timeout := effective_timeout timeoutArg
    if activeCount ≥ maxTasks then
      (.tooMany "Server is processing the maximum number of tasks", none)
    else
      (.accepted newId, some ⟨newId, (url.getD ""), user_agent, proxy, timeout⟩)

/-- task_results lookup (Python dict lookup; keys are unique). -/
def dictGet : List (String × Entry) → String → Option Entry
  | [], _ => none
  | p :: l, k => if p.1 = k then some p.2 else dictGet l k

/-- task_results[k] = v (Python dict assignment).  Modelled as replacing
any binding of k and putting the new one in front; no claim observes the
iteration order of the dict. -/
def dictSet (l : List (String × Entry)) (k : String) (v : Entry) :
    List (String × Entry) :=
  (k, v) :: l.filter (fun p => p.1 ≠ k)

/-- Responses of the /result endpoint (lines 511-538). -/
inductive ResultResp where
  | badReq (error : String)                 -- 400
  | notFound (error : String)               -- 404
  | processingResp (message : String)       -- 202
  | okResp (e : Entry)                      -- 200
deriving DecidableEq, Repr

/-- The /result handler: missing/empty id → 400; unknown id → 404;
status "processing" → 202; otherwise → 200 with the stored entry. -/
def get_result (results : List (String × Entry)) (idArg : Option String) :
    ResultResp :=
  if strFalsy idArg then
    .badReq "id parameter is required"
  else
    match dictGet results (idArg.getD "") with
    | none => .notFound "Task ID does not exist"
    | some e =>
      if e.status == "processing" then
        .processingResp "Task is being processed"
      else
        .okResp e

/-! ## The Challenge Resolver (CloudflareSolver.solve_cloudflare, lines 141-227)

Every browser-capability call is an oracle value: `Except String α` is a
call that either returns or raises (the String is str(e)).  Cookie reads
are indexed by how many get_cookies calls have happened so far.  Time is
an integer clock starting at 0 = start_time; navigation takes `navD`
seconds, every get_cookies call takes `pollD` seconds, each sleep adds
its literal duration, and element lookup / clicks / the user-agent read
are instantaneous (their durations play no role in any claim). -/

/-- The browser session capability, as one resolver run observes it. -/
structure Browser where
  /-- outcome of `await self.driver.get(url)` -/
  nav : Except String Unit
  /-- seconds spent in navigation -/
  navD : Nat
  /-- seconds spent in each get_cookies call -/
  pollD : Nat
  /-- outcome of the k-th get_cookies call (k = 0 is the arrival check) -/
  pollCookies : Nat → Except String (List CookieJ)
  /-- outcome of find_all("button"); each element is its click outcome -/
  findButtons : Except String (List (Except String Unit))
  /-- outcome of find_all("input[type=checkbox]") -/
  findCheckboxes : Except String (List (Except String Unit))
  /-- outcome of evaluate("navigator.userAgent") -/
  userAgentRes : Except String String

/-- Outcome of the 1-second cookie-poll loop (lines 161-168). -/
inductive PollOut where
  /-- the clearance cookie appeared: break out of the loop -/
  | found (c : CookieJ) (cs : List CookieJ) (t : Int) (k : Nat)
  /-- the while-condition failed: loop left without the cookie -/
  | timedOut (cs : List CookieJ) (t : Int) (k : Nat)
  /-- a get_cookies call raised (propagates to the outer handler) -/
  | raised (e : String) (t : Int)
deriving Repr

/-- The while-loop `while time.time() - start_wait < self._timeout`:
sleep 1 second, read cookies, break if cf_clearance is present.  The
clock advances by at least 1 per iteration, so `timeout.toNat + 1` fuel
is never exhausted (pollLoop_fuel_free below); the fuel-exhausted branch
coincides with the normal loop exit. -/
def pollLoop (br : Browser) (timeout startWait : Int) :
    Int → Nat → List CookieJ → Nat → PollOut
  | t, k, cur, 0 => .timedOut cur t k
  | t, k, cur, fuel + 1 =>
    if t - startWait < timeout then
      let tp := t + 1 + (br.pollD : Int)
      match br.pollCookies k with
      | .error e => .raised e tp
      | .ok cs =>
        match extract_clearance_cookie cs with
        | some c => .found c cs tp (k + 1)
        | none => pollLoop br timeout startWait tp (k + 1) cs fuel
    else .timedOut cur t k

/-- Seconds spent in one find_all sweep (lines 176-190): each click that
returns is followed by asyncio.sleep(2); a click that raises is swallowed
and its sleep is skipped. -/
def sweepTime (clicks : List (Except String Unit)) : Int :=
  clicks.foldl (fun acc c => acc + match c with | .ok _ => 2 | .error _ => 0) 0

/-- The interaction phase (the inner try at lines 173-196): enumerate and
click buttons, then checkboxes, then re-read cookies once.  Any raise
inside is swallowed (logged only): the sweep is abandoned, the clearance
cookie stays absent (the phase is only entered with it absent) and the
previously read cookie list is kept. -/
def interact (br : Browser) (t : Int) (k : Nat) (cur : List CookieJ) :
    Option CookieJ × List CookieJ × Int × Nat :=
  match br.findButtons with
  | .error _ => (none, cur, t, k)
  | .ok bs =>
    let t1 := t + sweepTime bs
    match br.findCheckboxes with
    | .error _ => (none, cur, t1, k)
    | .ok cbs =>
      let t2 := t1 + sweepTime cbs
      match br.pollCookies k with
      | .error _ => (none, cur, t2 + (br.pollD : Int), k + 1)
      | .ok cs => (extract_clearance_cookie cs, cs, t2 + (br.pollD : Int), k + 1)

/-- State of a resolver run just before the user-agent read at line 199:
either some stage raised outside the swallowed interaction phase
(flowing to the outer except), or control reached line 199 with the
current clearance cookie, cookie list and clock. -/
inductive CoreOut where
  | finished (clearance : Option CookieJ) (cookies : List CookieJ) (t : Int)
  | raised (e : String) (t : Int)
deriving Repr

/-- Lines 148-196 of solve_cloudflare: navigate, initial cookie check,
poll loop, interaction fallback. -/
def solveCore (br : Browser) (timeout : Int) : CoreOut :=
  match br.nav with
  | .error e => .raised e br.navD
  | .ok _ =>
    match br.pollCookies 0 with
    | .error e => .raised e (br.navD + br.pollD)
    | .ok cs0 =>
      let t0 : Int := br.navD + br.pollD
      match extract_clearance_cookie cs0 with
      | some c => .finished (some c) cs0 t0
      | none =>
        match pollLoop br timeout t0 t0 1 cs0 (timeout.toNat + 1) with
        | .raised e t => .raised e t
        | .found c cs t _ => .finished (some c) cs t
        | .timedOut _ t k =>
          let (cl, cs, t2, _) := interact br t k cs0
          .finished cl cs t2

/-- solve_cloudflare (lines 141-227): the outer try/except catches any
raise from the stages of solveCore or from the user-agent read and turns
it into the error dict with reason = str(e); otherwise the result dict is
built from whether the clearance cookie was obtained.  elapsed_time is
the clock at the moment the dict is built (start_time = 0). -/
def solve_cloudflare (br : Browser) (timeout : Int) : Entry :=
  match solveCore br timeout with
  | .raised e t => errorResult e t
  | .finished clearance cookies t =>
    match br.userAgentRes with
    | .error e => errorResult e t
    | .ok ua =>
      match clearance with
      | some c => successResult t c.value ua cookies
      | none => errorResult "Failed to retrieve cf_clearance cookie" t

/-- One pass of the cleanup_tasks loop body (lines 248-259): collect the
keys whose entry's timestamp (default 0 when absent) is older than
now - 86400, then delete them; returns the surviving registry and the
reported count len(keys_to_delete). -/
def cleanup_tasks_sweep (reg : List (String × Entry)) (now : Int) :
    List (String × Entry) × Nat :=
  let keysToDelete :=
    (reg.filter (fun p => p.2.timestamp.getD 0 < now - 86400)).map (·.1)
  (reg.filter (fun p => !(keysToDelete.contains p.1)), keysToDelete.length)

/-! ## The Job Supervisor (solve_cloudflare_task, lines 281-326)

The run is modelled as the trace it leaves behind: the successive values
written to task_results[task_id], the insert/delete operations performed
on active_solvers for this id, and the exception (if any) that escapes
the coroutine.  Wall-clock readings are oracle values. -/

/-- An operation on active_solvers for the run's own task id. -/
inductive SlotOp where
  | ins
  | del
deriving DecidableEq, Repr

/-- Everything one execution of solve_cloudflare_task can observe. -/
structure SupOracle where
  /-- the user_agent request parameter -/
  userAgentParam : Option String
  /-- latest_user_agents.get_latest_user_agents() -/
  agents : List String
  /-- the random.choice draw -/
  pick : Nat
  /-- the browser capability for this run -/
  br : Browser
  /-- the clamped timeout handed over by /solve -/
  timeout : Int
  /-- outcome of CloudflareSolver(...) construction (line 298) -/
  createSolverRes : Except String Unit
  /-- outcome of __aenter__, i.e. await self.driver.start() -/
  aenterRes : Except String Unit
  /-- outcome of __aexit__, i.e. await self.driver.stop() -/
  aexitRes : Except String Unit
  /-- time.time() at task start (line 285) -/
  tStart : Int
  /-- time.time() stored in the processing entry (line 292) -/
  tProc : Int
  /-- time.time() stamped onto the result (line 310) -/
  tDone : Int
  /-- time.time() at the except handler (lines 320-321) -/
  tErr : Int

/-- What one run of solve_cloudflare_task leaves behind. -/
structure RunTrace where
  /-- successive values of task_results[task_id], in write order -/
  writes : List Entry
  /-- active_solvers operations for task_id, in order -/
  slotOps : List SlotOp
  /-- an exception escaping the coroutine (nothing catches it) -/
  escaped : Option String
  /-- the user_agent the CloudflareSolver was constructed with, when
  construction succeeded -/
  solverUA : Option String
deriving DecidableEq, Repr

/-- Lines 287-289: `if not user_agent: user_agent = get_chrome_user_agent()`.
This runs before the try block; random.choice on an empty filtered list
raises IndexError. -/
def selectUserAgent (param : Option String) (agents : List String)
    (pick : Nat) : Except String String :=
  if strFalsy param then
    match get_chrome_user_agent agents pick with
    | none => .error "IndexError"
    | some ua => .ok ua
  else .ok (param.getD "")

/-- The error dict written by the except block of solve_cloudflare_task
(lines 317-322): reason = str(e), elapsed = time at the handler minus the
task's start time, timestamp = time at the handler. -/
def taskErrorEntry (r : String) (tErr tStart : Int) : Entry :=
  { status := "error", reason := some r,
    elapsed := some (tErr - tStart), timestamp := some tErr }

/-- solve_cloudflare_task (lines 281-326).  Control flow:
user-agent selection (outside the try: a raise here escapes, nothing is
written), then inside the try: write the processing entry, construct the
solver, insert into active_solvers, __aenter__, solve_cloudflare (which
never raises), stamp and store the result, __aexit__.  The except block
overwrites task_results[task_id] with an error entry; the finally block
deletes task_id from active_solvers when present. -/
def solve_cloudflare_task (o : SupOracle) : RunTrace :=
  match selectUserAgent o.userAgentParam o.agents o.pick with
  | .error e => ⟨[], [], some e, none⟩
  | .ok ua =>
    let pe := procEntry o.tProc
    let ee (r : String) : Entry := taskErrorEntry r o.tErr o.tStart
    match o.createSolverRes with
    | .error e => ⟨[pe, ee e], [], none, none⟩
    | .ok _ =>
      match o.aenterRes with
      | .error e => ⟨[pe, ee e], [.ins, .del], none, some ua⟩
      | .ok _ =>
        let res := { solve_cloudflare o.br o.timeout with
                     timestamp := some o.tDone }
        match o.aexitRes with
        | .ok _ => ⟨[pe, res], [.ins, .del], none, some ua⟩
        | .error e => ⟨[pe, res, ee e], [.ins, .del], none, some ua⟩

/-! ## The event-loop interleaving of submissions and runs

asyncio schedules the /solve handler and each solve_cloudflare_task
coroutine cooperatively.  Each transition below is one atomic execution
slice (a stretch of code with no await in it):

* `submit` — the whole /solve handler: capacity check against
  len(active_solvers), uuid4, asyncio.create_task, response.  It only
  READS active_solvers; nothing is inserted here.
* `start` — the first slice of solve_cloudflare_task (lines 285-307 up
  to the first await inside driver.start()): writes the processing entry
  and inserts into active_solvers.
* `finish` — the final slice: stores a terminal entry and deletes the id
  from active_solvers.

Fault-free runs only; faults inside one run are covered by the
solve_cloudflare_task model above, and the retention sweeper by
cleanup_tasks_sweep. -/

/-- The shared mutable state of the server. -/
structure Sys where
  /-- task_results -/
  results : List (String × Entry)
  /-- keys of active_solvers -/
  activeIds : List String
  /-- tasks created by asyncio.create_task whose first slice has not run -/
  scheduledIds : List String
  /-- task ids already returned to callers by /solve -/
  issued : List String
deriving Repr

/-- States reachable by interleaving /solve handlers and task slices,
with the configured maximum `maxT`. -/
inductive Reach (maxT : Nat) : Sys → Prop where
  | init : Reach maxT ⟨[], [], [], []⟩
  | submit (s : Sys) (id : String) (h : Reach maxT s)
      (hid : id ≠ "") (hfresh : id ∉ s.issued)
      (hcap : s.activeIds.length < maxT) :
      Reach maxT ⟨s.results, s.activeIds, id :: s.scheduledIds, id :: s.issued⟩
  | start (s : Sys) (id : String) (ts : Int) (h : Reach maxT s)
      (hm : id ∈ s.scheduledIds) :
      Reach maxT ⟨dictSet s.results id (procEntry ts), id :: s.activeIds,
        s.scheduledIds.erase id, s.issued⟩
  | finish (s : Sys) (id : String) (e : Entry) (h : Reach maxT s)
      (hm : id ∈ s.activeIds) (ht : isTerminal e = true)
      (hc : entryConsistent e = true) :
      Reach maxT ⟨dictSet s.results id e, s.activeIds.erase id,
        s.scheduledIds, s.issued⟩

/-! ## Helper lemmas -/

theorem effective_timeout_le (t : Option Int) : effective_timeout t ≤ 120 := by
  unfold effective_timeout
  dsimp only
  split <;> omega

theorem solve_sched_shape (url proxy ua : Option String) (targ : Option Int)
    (ac mt : Nat) (id : String) :
    (solve url proxy ua targ ac mt id).2 = none ∨
    (solve url proxy ua targ ac mt id).2 =
      some ⟨id, url.getD "", ua, proxy, effective_timeout targ⟩ := by
  simp only [solve]
  split_ifs <;> simp

/-- Two entries of a registry with nodup keys and equal keys are equal. -/
theorem key_inj {reg : List (String × Entry)} (hnd : (reg.map Prod.fst).Nodup)
    {p q : String × Entry} (hp : p ∈ reg) (hq : q ∈ reg) (he : p.1 = q.1) :
    p = q := by
  induction reg with
  | nil => cases hp
  | cons a l ih =>
    simp only [List.map_cons, List.nodup_cons] at hnd
    rcases List.mem_cons.mp hp with rfl | hp' <;>
      rcases List.mem_cons.mp hq with rfl | hq'
    · rfl
    · exact absurd (he ▸ List.mem_map_of_mem Prod.fst hq') hnd.1
    · exact absurd (he ▸ List.mem_map_of_mem Prod.fst hp') hnd.1
    · exact ih hnd.2 hp' hq'

theorem entryConsistent_procEntry (t : Int) :
    entryConsistent (procEntry t) = true := rfl

theorem entryConsistent_errorResult (r : String) (t : Int) :
    entryConsistent (errorResult r t) = true := rfl

theorem entryConsistent_successResult (t : Int) (v ua : String)
    (cs : List CookieJ) :
    entryConsistent (successResult t v ua cs) = true := rfl

theorem entryConsistent_taskErrorEntry (r : String) (a b : Int) :
    entryConsistent (taskErrorEntry r a b) = true := rfl

theorem entryConsistent_setTimestamp (e : Entry) (t : Option Int) :
    entryConsistent { e with timestamp := t } = entryConsistent e := rfl

theorem isTerminal_setTimestamp (e : Entry) (t : Option Int) :
    isTerminal { e with timestamp := t } = isTerminal e := rfl

/-- The resolver always returns one of the two result dict shapes. -/
theorem solve_cloudflare_shape (br : Browser) (timeout : Int) :
    (∃ r t, solve_cloudflare br timeout = errorResult r t) ∨
    (∃ t v ua cs, solve_cloudflare br timeout = successResult t v ua cs) := by
  unfold solve_cloudflare
  cases h : solveCore br timeout with
  | raised e t => exact Or.inl ⟨e, t, rfl⟩
  | finished cl cs t =>
    cases hua : br.userAgentRes with
    | error e => exact Or.inl ⟨e, t, rfl⟩
    | ok ua =>
      cases cl with
      | some c => exact Or.inr ⟨t, c.value, ua, cs, rfl⟩
      | none => exact Or.inl ⟨_, t, rfl⟩

theorem isTerminal_solve_cloudflare (br : Browser) (timeout : Int) :
    isTerminal (solve_cloudflare br timeout) = true := by
  rcases solve_cloudflare_shape br timeout with ⟨r, t, h⟩ | ⟨t, v, ua, cs, h⟩ <;>
    rw [h] <;> rfl

theorem entryConsistent_solve_cloudflare (br : Browser) (timeout : Int) :
    entryConsistent (solve_cloudflare br timeout) = true := by
  rcases solve_cloudflare_shape br timeout with ⟨r, t, h⟩ | ⟨t, v, ua, cs, h⟩ <;>
    rw [h] <;> rfl

theorem sweepTime_foldl_ge (l : List (Except String Unit)) :
    ∀ a : Int,
      a ≤ l.foldl
        (fun acc c => acc + match c with | .ok _ => (2 : Int) | .error _ => 0) a := by
  induction l with
  | nil => intro a; exact le_refl a
  | cons c l ih =>
    intro a
    rw [List.foldl_cons]
    refine le_trans ?_ (ih _)
    cases c <;> simp

theorem sweepTime_nonneg (l : List (Except String Unit)) : 0 ≤ sweepTime l :=
  sweepTime_foldl_ge l 0

/-- A browser run against a target that never yields the clearance cookie
and on which no capability call raises. -/
def neverYields (br : Browser) : Prop :=
  br.nav = .ok ()
  ∧ (∀ k, ∃ cs, br.pollCookies k = .ok cs ∧ extract_clearance_cookie cs = none)
  ∧ (∃ bs, br.findButtons = .ok bs)
  ∧ (∃ cbs, br.findCheckboxes = .ok cbs)
  ∧ (∃ ua, br.userAgentRes = .ok ua)

/-- When the cookie never appears and no poll raises, the poll loop exits
by its while-condition at the first multiple of the iteration period at
or past the timeout: at least `timeout` after start_wait and less than
one iteration period beyond it (or immediately, when the condition fails
at entry). -/
theorem pollLoop_neverYields (br : Browser) (timeout startWait : Int)
    (hb : ∀ k, ∃ cs, br.pollCookies k = .ok cs
      ∧ extract_clearance_cookie cs = none) :
    ∀ (fuel : Nat) (t : Int) (k : Nat) (cur : List CookieJ),
      timeout ≤ t - startWait + (fuel : Int) →
      ∃ cs' t' k',
        pollLoop br timeout startWait t k cur fuel = .timedOut cs' t' k'
        ∧ t ≤ t' ∧ timeout ≤ t' - startWait
        ∧ (t' - startWait < timeout + 1 + br.pollD ∨ t' = t) := by
  intro fuel
  induction fuel with
  | zero =>
    intro t k cur hf
    exact ⟨cur, t, k, rfl, le_refl t, by omega, Or.inr rfl⟩
  | succ n ih =>
    intro t k cur hf
    by_cases hc : t - startWait < timeout
    · obtain ⟨cs, hcs, hnone⟩ := hb k
      simp only [pollLoop, if_pos hc, hcs, hnone]
      obtain ⟨cs', t', k', heq, hle, hge, hdis⟩ :=
        ih (t + 1 + br.pollD) (k + 1) cs (by omega)
      refine ⟨cs', t', k', heq, by omega, hge, Or.inl ?_⟩
      rcases hdis with h | h
      · exact h
      · rw [h]; omega
    · simp only [pollLoop, if_neg hc]
      exact ⟨cur, t, k, rfl, le_refl t, by omega, Or.inr rfl⟩

/-- On a neverYields browser, solveCore finishes without the cookie at
time t' + both sweep durations + one cookie read, where t' is the poll
loop's exit time. -/
theorem solveCore_neverYields (br : Browser) (timeout : Int)
    (h : neverYields br) :
    ∃ bs cbs cs t',
      br.findButtons = .ok bs ∧ br.findCheckboxes = .ok cbs
      ∧ solveCore br timeout =
          .finished none cs (t' + sweepTime bs + sweepTime cbs + br.pollD)
      ∧ timeout ≤ t' - (br.navD + br.pollD)
      ∧ (t' - (br.navD + br.pollD) < timeout + 1 + br.pollD
          ∨ t' = br.navD + br.pollD) := by
  obtain ⟨hn, hb, ⟨bs, hbs⟩, ⟨cbs, hcbs⟩, -⟩ := h
  obtain ⟨cs0, hcs0, hn0⟩ := hb 0
  obtain ⟨cs', t', k', heq, hle, hge, hdis⟩ :=
    pollLoop_neverYields br timeout ((br.navD : Int) + (br.pollD : Int)) hb
      (timeout.toNat + 1) ((br.navD : Int) + (br.pollD : Int)) 1 cs0 (by omega)
  obtain ⟨csk, hcsk, hnk⟩ := hb k'
  refine ⟨bs, cbs, csk, t', hbs, hcbs, ?_, by omega, ?_⟩
  · simp only [solveCore, hn, hcs0, hn0, heq, interact, hbs, hcbs, hcsk, hnk]
  · rcases hdis with h | h
    · exact Or.inl (by omega)
    · exact Or.inr (by omega)

/-! ## Claim theorems -/

/-- Claim C5 (confirmed): the /solve handler validates before touching any
state.  A request with a falsy url is rejected 400; a request with a
nonempty proxy whose scheme is not one of http/https/socks4/socks5 is
rejected 400; a request with a nonempty url and a socks5 proxy is
accepted 202 when below capacity.  In the rejection cases the scheduled
component is `none`: no task is created and nothing is ever inserted into
active_solvers for the request. -/
theorem solve_validation :
    (∀ url proxy ua : Option String, ∀ targ : Option Int, ∀ ac mt : Nat,
      ∀ id : String, strFalsy url = true →
        solve url proxy ua targ ac mt id =
          (.badReq "URL parameter is required", none))
    ∧ (∀ url : Option String, ∀ p : String, ∀ ua : Option String,
      ∀ targ : Option Int, ∀ ac mt : Nat, ∀ id : String,
        p.data.isEmpty = false → validProxy p = false →
        ∃ m, solve url (some p) ua targ ac mt id = (.badReq m, none))
    ∧ (∀ u p : String, ∀ ua : Option String, ∀ targ : Option Int,
      ∀ ac mt : Nat, ∀ id : String, u.data.isEmpty = false →
        strStartsWith p "socks5://" = true → ac < mt →
        solve (some u) (some p) ua targ ac mt id =
          (.accepted id, some ⟨id, u, ua, some p, effective_timeout targ⟩)) := by
  refine ⟨?_, ?_, ?_⟩
  · intro url proxy ua targ ac mt id h
    simp only [solve]
    rw [if_pos h]
  · intro url p ua targ ac mt id hp hv
    by_cases hu : strFalsy url = true
    · exact ⟨"URL parameter is required", by simp only [solve]; rw [if_pos hu]⟩
    · refine ⟨"Invalid proxy format. Must start with http://, https://, socks4:// or socks5://", ?_⟩
      simp only [solve]
      rw [if_neg hu, if_pos (by simp [strFalsy, hp, hv])]
  · intro u p ua targ ac mt id hu hs hcap
    have hv : validProxy p = true := by
      unfold validProxy
      rw [hs]
      simp
    simp only [solve]
    rw [if_neg (by simp [strFalsy, hu]), if_neg (by simp [strFalsy, hv]),
      if_neg (by omega)]
    rfl

/-- Concrete instances of the three validation scenarios. -/
theorem solve_validation_witness :
    solve none none none none 0 10 "t1" =
      (.badReq "URL parameter is required", none)
    ∧ (∃ m, solve (some "u") (some "ftp://x") none none 0 10 "t1" =
        (.badReq m, none))
    ∧ solve (some "u") (some "socks5://x") none none 0 10 "t1" =
        (.accepted "t1", some ⟨"t1", "u", none, some "socks5://x", 60⟩) :=
  ⟨solve_validation.1 none none none none 0 10 "t1" rfl,
   solve_validation.2.1 (some "u") "ftp://x" none none 0 10 "t1" rfl (by decide),
   solve_validation.2.2 "u" "socks5://x" none none 0 10 "t1" rfl (by decide)
     (by omega)⟩

/-- Claim C6 (confirmed): every scheduled run's timeout is at most 120
seconds; a requested value above 120 is clamped to exactly 120, a value of
at most 120 is used as given, and an absent (or unparsable) timeout
parameter defaults to 60. -/
theorem solve_timeout_clamped (url proxy ua : Option String)
    (targ : Option Int) (ac mt : Nat) (id : String) (sch : Scheduled)
    (h : (solve url proxy ua targ ac mt id).2 = some sch) :
    sch.timeout ≤ 120
      ∧ (targ = none → sch.timeout = 60)
      ∧ (∀ t : Int, targ = some t → 120 < t → sch.timeout = 120)
      ∧ (∀ t : Int, targ = some t → t ≤ 120 → sch.timeout = t) := by
  rcases solve_sched_shape url proxy ua targ ac mt id with h0 | h0
  · rw [h0] at h
    cases h
  · rw [h0] at h
    injection h with h
    subst h
    refine ⟨effective_timeout_le targ, ?_, ?_, ?_⟩
    · rintro rfl
      rfl
    · rintro t rfl ht
      unfold effective_timeout
      dsimp only [Option.getD]
      rw [if_pos ht]
    · rintro t rfl ht
      unfold effective_timeout
      dsimp only [Option.getD]
      rw [if_neg (by omega)]

/-- A request with timeout 150 is accepted with the timeout clamped to
exactly 120. -/
theorem solve_timeout_clamped_witness :
    (solve (some "u") none none (some 150) 0 10 "t1").2 =
      some ⟨"t1", "u", none, none, 120⟩
    ∧ (⟨"t1", "u", none, none, 120⟩ : Scheduled).timeout = 120 :=
  ⟨rfl, (solve_timeout_clamped (some "u") none none (some 150) 0 10 "t1"
    ⟨"t1", "u", none, none, 120⟩ rfl).2.2.1 150 rfl (by omega)⟩

/-- Claim C2, counterexample: the retention sweep removes an entry that is
still in status "processing" (not terminal) as soon as its timestamp is
older than the 24-hour cutoff, contradicting "never removes a task whose
status is still Pending or Processing, regardless of its age". -/
theorem cleanup_evicts_processing_entry :
    (procEntry 0).status = "processing"
    ∧ isTerminal (procEntry 0) = false
    ∧ cleanup_tasks_sweep [("a", procEntry 0)] 100000 = ([], 1) :=
  ⟨rfl, rfl, rfl⟩

/-- Claim C2 (amended): one retention sweep removes exactly the entries
whose stored timestamp (completion time for terminal entries, creation
time for a processing entry) precedes now - 86400, regardless of status;
in particular every terminal entry completed before the cutoff is
removed, and entries at or after the cutoff all survive. -/
theorem cleanup_tasks_sweep_amended (reg : List (String × Entry)) (now : Int)
    (hnd : (reg.map Prod.fst).Nodup) :
    (∀ p ∈ (cleanup_tasks_sweep reg now).1, p ∈ reg)
    ∧ (∀ p ∈ reg,
        (p ∈ (cleanup_tasks_sweep reg now).1 ↔
          ¬(p.2.timestamp.getD 0 < now - 86400)))
    ∧ (∀ p ∈ reg, isTerminal p.2 = true → p.2.timestamp.getD 0 < now - 86400 →
        p ∉ (cleanup_tasks_sweep reg now).1) := by
  have hmem : ∀ p ∈ reg,
      (p ∈ (cleanup_tasks_sweep reg now).1 ↔
        ¬(p.2.timestamp.getD 0 < now - 86400)) := by
    intro p hp
    simp only [cleanup_tasks_sweep, List.mem_filter]
    constructor
    · rintro ⟨-, hk⟩ hold
      simp only [List.contains, List.elem_eq_mem, Bool.not_eq_true',
        decide_eq_false_iff_not] at hk
      exact hk (List.mem_map_of_mem _
        (List.mem_filter.mpr ⟨hp, decide_eq_true hold⟩))
    · intro hnew
      refine ⟨hp, ?_⟩
      simp only [List.contains, List.elem_eq_mem, Bool.not_eq_true',
        decide_eq_false_iff_not]
      intro hm
      obtain ⟨q, hq, hq1⟩ := List.mem_map.mp hm
      obtain ⟨hqr, hqold⟩ := List.mem_filter.mp hq
      cases key_inj hnd hqr hp hq1
      exact hnew (of_decide_eq_true hqold)
  refine ⟨?_, hmem, ?_⟩
  · intro p hp
    exact (List.mem_filter.mp hp).1
  · intro p hp _ hold
    intro hin
    exact ((hmem p hp).mp hin) hold

/-- A terminal entry completed before the cutoff is removed by the sweep,
while a fresh one survives. -/
theorem cleanup_tasks_sweep_amended_witness :
    ("old", taskErrorEntry "x" 5 0) ∉
      (cleanup_tasks_sweep [("old", taskErrorEntry "x" 5 0)] 100000).1 :=
  (cleanup_tasks_sweep_amended [("old", taskErrorEntry "x" 5 0)] 100000
    (by decide)).2.2 _ (by decide) (by decide) (by decide)

/-- A cf_clearance cookie used by concrete runs. -/
def cfCookie : CookieJ := ⟨"cf_clearance", "v"⟩

/-- A concrete run in which navigation and cookie reads work, the cookie
is absent at arrival and during the poll, the single button's click
raises "boom", and the post-sweep cookie re-read finds the cookie. -/
def br4 : Browser :=
  { nav := .ok (), navD := 0, pollD := 0,
    pollCookies := fun k => if k ≤ 1 then .ok [] else .ok [cfCookie],
    findButtons := .ok [.error "boom"], findCheckboxes := .ok [],
    userAgentRes := .ok "UA" }

/-- Claim C4, counterexample: a browser-capability exception raised by a
click during the interaction sweep is NOT mapped to a terminal failure
with that exception's description — it is swallowed by the inner handler
and the run even ends in success when the post-sweep cookie re-read finds
the clearance cookie. -/
theorem resolver_swallows_click_exception :
    br4.findButtons = .ok [.error "boom"]
    ∧ solve_cloudflare br4 1 = successResult 1 "v" "UA" [cfCookie] :=
  ⟨rfl, rfl⟩

/-- Claim C4 (amended): the resolver never propagates an exception: its
result is always one of the two terminal dict shapes.  An exception from
navigation, from a cookie read at arrival, or from the final user-agent
read reaches the outermost handler and becomes a failure whose reason is
the exception's description, carrying the elapsed time; an exception from
element enumeration during the interaction sweep is swallowed where it
occurs and the run continues with the cookie still absent. -/
theorem solve_cloudflare_amended (br : Browser) (timeout : Int) :
    ((solve_cloudflare br timeout).status = "success"
      ∨ (solve_cloudflare br timeout).status = "error")
    ∧ (∀ e, br.nav = .error e →
        solve_cloudflare br timeout = errorResult e br.navD)
    ∧ (∀ e, br.nav = .ok () → br.pollCookies 0 = .error e →
        solve_cloudflare br timeout = errorResult e (br.navD + br.pollD))
    ∧ (∀ e cl cs t, solveCore br timeout = .finished cl cs t →
        br.userAgentRes = .error e →
        solve_cloudflare br timeout = errorResult e t)
    ∧ (∀ e t k cur, br.findButtons = .error e →
        interact br t k cur = (none, cur, t, k)) := by
  refine ⟨?_, ?_, ?_, ?_, ?_⟩
  · rcases solve_cloudflare_shape br timeout with ⟨r, t, h⟩ | ⟨t, v, ua, cs, h⟩ <;>
      rw [h]
    · exact Or.inr rfl
    · exact Or.inl rfl
  · intro e h
    simp only [solve_cloudflare, solveCore, h]
  · intro e hn hp
    simp only [solve_cloudflare, solveCore, hn, hp]
  · intro e cl cs t hcore hua
    simp only [solve_cloudflare, hcore, hua]
  · intro e t k cur hb
    simp only [interact, hb]

/-- A navigation failure is mapped to the failure result carrying its
description and the navigation time. -/
theorem solve_cloudflare_amended_witness :
    solve_cloudflare
      { nav := .error "net::ERR_TIMED_OUT", navD := 3, pollD := 0,
        pollCookies := fun _ => .ok [], findButtons := .ok [],
        findCheckboxes := .ok [], userAgentRes := .ok "UA" } 60 =
      errorResult "net::ERR_TIMED_OUT" 3 :=
  (solve_cloudflare_amended _ 60).2.1 "net::ERR_TIMED_OUT" rfl

/-- A concrete run whose navigation takes 5 seconds and whose target
never yields the clearance cookie; no element is clickable. -/
def brNever : Browser :=
  { nav := .ok (), navD := 5, pollD := 0,
    pollCookies := fun _ => .ok [],
    findButtons := .ok [], findCheckboxes := .ok [],
    userAgentRes := .ok "UA" }

/-- Claim C7, counterexample: with timeout 60 and a 5-second navigation,
the failure result is reached at elapsed time 65 — later than
timeout_seconds plus the (empty) interaction-sweep duration, because the
poll deadline is measured from start_wait (after navigation), not from
the resolver's start. -/
theorem resolver_timing_counterexample :
    brNever.navD = 5
    ∧ brNever.findButtons = .ok [] ∧ brNever.findCheckboxes = .ok []
    ∧ sweepTime [] = 0
    ∧ solve_cloudflare brNever 60 =
        errorResult "Failed to retrieve cf_clearance cookie" 65
    ∧ ¬((65 : Int) ≤ 60 + sweepTime [] + sweepTime []) :=
  ⟨rfl, rfl, rfl, rfl, rfl, by decide⟩

/-- Claim C7 (amended): on a run that never yields the cookie and never
raises, the resolver reaches the failure result "Failed to retrieve
cf_clearance cookie" no sooner than timeout_seconds, and within the
navigation duration plus timeout_seconds plus one poll period plus the
interaction-sweep duration — the poll deadline being measured from the
start of the waiting phase (after navigation and the initial cookie
check), not from the resolver's start. -/
theorem solve_cloudflare_timing (br : Browser) (timeout : Int)
    (h : neverYields br) (h0 : 0 ≤ timeout) :
    ∃ bs cbs elapsed,
      br.findButtons = .ok bs ∧ br.findCheckboxes = .ok cbs
      ∧ solve_cloudflare br timeout =
          errorResult "Failed to retrieve cf_clearance cookie" elapsed
      ∧ timeout ≤ elapsed
      ∧ elapsed < br.navD + 3 * br.pollD + timeout + 1
          + sweepTime bs + sweepTime cbs := by
  obtain ⟨bs, cbs, cs, t', hbs, hcbs, hcore, hge, hdis⟩ :=
    solveCore_neverYields br timeout h
  obtain ⟨ua, hua⟩ := h.2.2.2.2
  have hsb := sweepTime_nonneg bs
  have hsc := sweepTime_nonneg cbs
  refine ⟨bs, cbs, t' + sweepTime bs + sweepTime cbs + br.pollD,
    hbs, hcbs, ?_, ?_, ?_⟩
  · simp only [solve_cloudflare, hcore, hua]
  · omega
  · rcases hdis with hlt | heq <;> omega

/-- Concrete timing bounds for brNever with timeout 60: the failure is
reached at elapsed 65, between 60 and 5 + 0 + 60 + 1 + 0 + 0. -/
theorem solve_cloudflare_timing_witness :
    ∃ bs cbs elapsed,
      brNever.findButtons = .ok bs ∧ brNever.findCheckboxes = .ok cbs
      ∧ solve_cloudflare brNever 60 =
          errorResult "Failed to retrieve cf_clearance cookie" elapsed
      ∧ (60 : Int) ≤ elapsed
      ∧ elapsed < brNever.navD + 3 * brNever.pollD + 60 + 1
          + sweepTime bs + sweepTime cbs :=
  solve_cloudflare_timing brNever 60
    ⟨rfl, fun _ => ⟨[], rfl, rfl⟩, ⟨[], rfl⟩, ⟨[], rfl⟩, ⟨"UA", rfl⟩⟩
    (by omega)

/-- A concrete run that finds the clearance cookie at arrival. -/
def brQuick : Browser :=
  { nav := .ok (), navD := 0, pollD := 0,
    pollCookies := fun _ => .ok [cfCookie],
    findButtons := .ok [], findCheckboxes := .ok [],
    userAgentRes := .ok "UA" }

/-- A concrete supervised run whose resolution succeeds but whose
driver.stop() in the context-manager exit raises. -/
def o3 : SupOracle :=
  { userAgentParam := some "ua-param", agents := [], pick := 0,
    br := brQuick, timeout := 60,
    createSolverRes := .ok (), aenterRes := .ok (),
    aexitRes := .error "stop failed",
    tStart := 0, tProc := 1, tDone := 2, tErr := 3 }

/-- Claim C3, counterexample: when closing the browser raises after the
success result was stored, the except handler of solve_cloudflare_task
overwrites the already-terminal entry with a different terminal error
entry, so the stored entry of a task that reached a terminal state is
modified again and later reads differ from earlier ones. -/
theorem terminal_entry_overwritten :
    (solve_cloudflare_task o3).writes =
      [procEntry 1,
       { successResult 0 "v" "UA" [cfCookie] with timestamp := some 2 },
       taskErrorEntry "stop failed" 3 0]
    ∧ isTerminal { successResult 0 "v" "UA" [cfCookie] with
        timestamp := some 2 } = true
    ∧ ({ successResult 0 "v" "UA" [cfCookie] with timestamp := some 2 } : Entry)
        ≠ taskErrorEntry "stop failed" 3 0 :=
  ⟨rfl, rfl, by decide⟩

/-- Claim C3 (amended): every entry ever stored for a task is
status/result consistent — no result fields while processing, exactly one
of the two terminal shapes once terminal — and, provided closing the
browser session does not raise, an entry that has reached a terminal
state is never written again (the terminal write is the last).  When
driver.stop() raises after the result was stored, the except handler
performs one further terminal write, overwriting the stored result with
an error entry. -/
theorem task_entry_consistency (o : SupOracle) :
    (∀ e ∈ (solve_cloudflare_task o).writes, entryConsistent e = true)
    ∧ (o.aexitRes = .ok () →
        ∀ e ∈ (solve_cloudflare_task o).writes.dropLast,
          isTerminal e = false) := by
  unfold solve_cloudflare_task
  cases hua : selectUserAgent o.userAgentParam o.agents o.pick with
  | error e =>
    refine ⟨?_, ?_⟩
    · intro x hx
      simp at hx
    · intro _ x hx
      simp at hx
  | ok ua =>
    cases hcr : o.createSolverRes with
    | error e =>
      refine ⟨?_, ?_⟩
      · intro x hx
        simp only [List.mem_cons, List.not_mem_nil, or_false] at hx
        rcases hx with rfl | rfl
        · exact entryConsistent_procEntry _
        · exact entryConsistent_taskErrorEntry _ _ _
      · intro _ x hx
        simp only [List.dropLast] at hx
        simp only [List.mem_cons, List.not_mem_nil, or_false] at hx
        subst hx
        rfl
    | ok _ =>
      cases hae : o.aenterRes with
      | error e =>
        refine ⟨?_, ?_⟩
        · intro x hx
          simp only [List.mem_cons, List.not_mem_nil, or_false] at hx
          rcases hx with rfl | rfl
          · exact entryConsistent_procEntry _
          · exact entryConsistent_taskErrorEntry _ _ _
        · intro _ x hx
          simp only [List.dropLast] at hx
          simp only [List.mem_cons, List.not_mem_nil, or_false] at hx
          subst hx
          rfl
      | ok _ =>
        cases hax : o.aexitRes with
        | ok _ =>
          refine ⟨?_, ?_⟩
          · intro x hx
            simp only [List.mem_cons, List.not_mem_nil, or_false] at hx
            rcases hx with rfl | rfl
            · exact entryConsistent_procEntry _
            · rw [entryConsistent_setTimestamp]
              exact entryConsistent_solve_cloudflare _ _
          · intro _ x hx
            simp only [List.dropLast] at hx
            simp only [List.mem_cons, List.not_mem_nil, or_false] at hx
            subst hx
            rfl
        | error e =>
          refine ⟨?_, ?_⟩
          · intro x hx
            simp only [List.mem_cons, List.not_mem_nil, or_false] at hx
            rcases hx with rfl | rfl | rfl
            · exact entryConsistent_procEntry _
            · rw [entryConsistent_setTimestamp]
              exact entryConsistent_solve_cloudflare _ _
            · exact entryConsistent_taskErrorEntry _ _ _
          · intro hok
            exact Except.noConfusion hok

/-- A fault-free supervised run writes only consistent entries and its
single terminal write is the last one. -/
theorem task_entry_consistency_witness :
    (∀ e ∈ (solve_cloudflare_task o3).writes, entryConsistent e = true)
    ∧ isTerminal (procEntry 1) = false :=
  ⟨(task_entry_consistency o3).1, rfl⟩

/-- Claim C9 (confirmed): per run of solve_cloudflare_task, insertions
into and deletions from active_solvers balance exactly and happen at most
once; whenever the run occupied an admission slot (the slot-op trace is
nonempty), it is exactly one insert followed by one delete, no exception
escapes the coroutine, and the last registry write is a terminal
outcome. -/
theorem admission_slot_released (o : SupOracle) :
    ((solve_cloudflare_task o).slotOps.count .ins
      = (solve_cloudflare_task o).slotOps.count .del)
    ∧ (solve_cloudflare_task o).slotOps.count .ins ≤ 1
    ∧ ((solve_cloudflare_task o).slotOps ≠ [] →
        (solve_cloudflare_task o).slotOps = [.ins, .del]
        ∧ (solve_cloudflare_task o).escaped = none
        ∧ ∃ e, (solve_cloudflare_task o).writes.getLast? = some e
            ∧ isTerminal e = true) := by
  unfold solve_cloudflare_task
  cases hua : selectUserAgent o.userAgentParam o.agents o.pick with
  | error e =>
    exact ⟨rfl, Nat.zero_le 1, fun h => absurd rfl h⟩
  | ok ua =>
    cases hcr : o.createSolverRes with
    | error e =>
      exact ⟨rfl, Nat.zero_le 1, fun h => absurd rfl h⟩
    | ok _ =>
      cases hae : o.aenterRes with
      | error e =>
        exact ⟨rfl, Nat.le_refl 1, fun _ => ⟨rfl, rfl, ⟨_, rfl, rfl⟩⟩⟩
      | ok _ =>
        cases hax : o.aexitRes with
        | ok _ =>
          refine ⟨rfl, Nat.le_refl 1, fun _ => ⟨rfl, rfl, ⟨_, rfl, ?_⟩⟩⟩
          rw [isTerminal_setTimestamp]
          exact isTerminal_solve_cloudflare _ _
        | error e =>
          exact ⟨rfl, Nat.le_refl 1, fun _ => ⟨rfl, rfl, ⟨_, rfl, rfl⟩⟩⟩

/-- A fault-free run: its slot trace is exactly one insert then one
delete, nothing escapes, and the last write is terminal. -/
theorem admission_slot_released_witness :
    (solve_cloudflare_task o3).slotOps = [.ins, .del]
    ∧ (solve_cloudflare_task o3).escaped = none
    ∧ ∃ e, (solve_cloudflare_task o3).writes.getLast? = some e
        ∧ isTerminal e = true :=
  (admission_slot_released o3).2.2 (by decide)

/-- Claim C10 (confirmed): when no user_agent parameter is supplied and
the latest-user-agents list contains a Chrome agent, the selected user
agent is a member of that list, contains "Chrome", is nonempty, and is
exactly the string the CloudflareSolver is constructed with — the run
never proceeds with an unset user agent. -/
theorem random_user_agent_is_chrome (o : SupOracle)
    (hp : o.userAgentParam = none)
    (hc : o.agents.filter containsChrome ≠ []) :
    ∃ u, selectUserAgent o.userAgentParam o.agents o.pick = .ok u
      ∧ u ∈ o.agents ∧ containsChrome u = true ∧ u ≠ ""
      ∧ (o.createSolverRes = .ok () →
          (solve_cloudflare_task o).solverUA = some u) := by
  have hlen : 0 < (o.agents.filter containsChrome).length :=
    List.length_pos.mpr hc
  have hidx : o.pick % (o.agents.filter containsChrome).length
      < (o.agents.filter containsChrome).length := Nat.mod_lt _ hlen
  have hget : (o.agents.filter containsChrome).get?
      (o.pick % (o.agents.filter containsChrome).length)
      = some ((o.agents.filter containsChrome).get ⟨_, hidx⟩) :=
    List.get?_eq_get hidx
  have humem : (o.agents.filter containsChrome).get ⟨_, hidx⟩
      ∈ o.agents.filter containsChrome := List.get_mem _ _ _
  obtain ⟨hmem, hchrome⟩ := List.mem_filter.mp humem
  have hsel : selectUserAgent o.userAgentParam o.agents o.pick
      = .ok ((o.agents.filter containsChrome).get ⟨_, hidx⟩) := by
    unfold selectUserAgent
    rw [hp, if_pos (show strFalsy none = true from rfl)]
    simp only [get_chrome_user_agent]
    rw [hget]
  refine ⟨_, hsel, hmem, hchrome, ?_, ?_⟩
  · intro heq
    rw [heq] at hchrome
    exact absurd hchrome (by decide)
  · intro hok
    unfold solve_cloudflare_task
    rw [hsel]
    cases o.aenterRes <;> cases o.aexitRes <;> simp only [hok]

/-- A concrete supervised run submitted without a user_agent parameter,
with a two-element latest-user-agents list. -/
def o10 : SupOracle :=
  { userAgentParam := none,
    agents := ["Mozilla/5.0 (X11; Linux x86_64) Chrome/120.0.0.0", "Firefox/121.0"],
    pick := 3, br := brQuick, timeout := 60,
    createSolverRes := .ok (), aenterRes := .ok (), aexitRes := .ok (),
    tStart := 0, tProc := 0, tDone := 0, tErr := 0 }

/-- A concrete request without a user_agent parameter gets a Chrome user
agent drawn from the list. -/
theorem random_user_agent_is_chrome_witness :
    ∃ u, selectUserAgent o10.userAgentParam o10.agents o10.pick = .ok u
      ∧ u ∈ o10.agents ∧ containsChrome u = true ∧ u ≠ ""
      ∧ (o10.createSolverRes = .ok () →
          (solve_cloudflare_task o10).solverUA = some u) :=
  random_user_agent_is_chrome o10 rfl (by decide)

theorem dictGet_set_self (l : List (String × Entry)) (k : String) (v : Entry) :
    dictGet (dictSet l k v) k = some v := by
  simp [dictGet, dictSet]

theorem dictGet_filter_keyne (l : List (String × Entry)) (k k' : String)
    (h : k' ≠ k) :
    dictGet (l.filter (fun p => p.1 ≠ k)) k' = dictGet l k' := by
  induction l with
  | nil => rfl
  | cons a l ih =>
    rw [List.filter_cons]
    by_cases ha : a.1 = k
    · rw [if_neg (by simp [ha])]
      rw [ih]
      have hne : a.1 ≠ k' := by rw [ha]; exact fun he => h he.symm
      simp only [dictGet]
      rw [if_neg hne]
    · rw [if_pos (by simp [ha])]
      simp only [dictGet]
      by_cases hk : a.1 = k'
      · rw [if_pos hk, if_pos hk]
      · rw [if_neg hk, if_neg hk, ih]

theorem dictGet_set_ne (l : List (String × Entry)) (k k' : String) (v : Entry)
    (h : k' ≠ k) :
    dictGet (dictSet l k v) k' = dictGet l k' := by
  unfold dictSet
  have hne : k ≠ k' := fun he => h he.symm
  simp only [dictGet, hne, if_false]
  exact dictGet_filter_keyne l k k' h

theorem strFalsy_of_ne (id : String) (h : id ≠ "") :
    strFalsy (some id) = false := by
  cases id with
  | mk data =>
    cases data with
    | nil => exact absurd rfl h
    | cons c cs => rfl

/-- Claim C1 (capacity race): with max_concurrent_tasks = 1, two /solve
handlers can both pass the len(active_solvers) >= max check before either
spawned solve_cloudflare_task has run its first slice (the insertion into
active_solvers happens inside the spawned task, lines 292-305, not in the
handler), after which both runs are in Processing simultaneously: a
reachable state has two active solvers and two processing registry
entries under a configured maximum of one. -/
theorem capacity_check_not_atomic :
    ∃ s : Sys, Reach 1 s ∧ 2 ≤ s.activeIds.length
      ∧ (∀ p ∈ s.results, p.2.status = "processing") := by
  refine ⟨_, Reach.start _ "b" 0 (Reach.start _ "a" 0
    (Reach.submit _ "b"
      (Reach.submit _ "a" Reach.init (by decide) (by decide) (by decide))
      (by decide) (by decide) (by decide))
    (by decide)) (by decide), ?_, ?_⟩
  · decide
  · decide

/-- All structural invariants of reachable server states needed by the
/result contract: every registry key was issued; every issued id is
either still awaiting its first slice or present in the registry; every
registry entry is consistent and either processing or terminal; active
and scheduled ids were issued and issued ids are nonempty uuid strings. -/
theorem reach_invariant (maxT : Nat) (s : Sys) (h : Reach maxT s) :
    (∀ id e, dictGet s.results id = some e →
      id ∈ s.issued ∧ entryConsistent e = true
        ∧ (e.status = "processing" ∨ isTerminal e = true))
    ∧ (∀ id, id ∈ s.issued →
        id ≠ "" ∧ (id ∈ s.scheduledIds ∨ (dictGet s.results id).isSome = true))
    ∧ (∀ id, id ∈ s.scheduledIds → id ∈ s.issued)
    ∧ (∀ id, id ∈ s.activeIds → id ∈ s.issued) := by
  induction h with
  | init =>
    refine ⟨?_, ?_, ?_, ?_⟩
    · intro id e h0
      simp [dictGet] at h0
    · intro id h0
      simp at h0
    · intro id h0
      simp at h0
    · intro id h0
      simp at h0
  | submit s id hr hid hfresh hcap ih =>
    obtain ⟨ih1, ih2, ih3, ih4⟩ := ih
    refine ⟨?_, ?_, ?_, ?_⟩
    · intro id0 e h0
      obtain ⟨ha, hb, hc⟩ := ih1 id0 e h0
      exact ⟨List.mem_cons_of_mem _ ha, hb, hc⟩
    · intro id0 h0
      rcases List.mem_cons.mp h0 with rfl | h0
      · exact ⟨hid, Or.inl (List.mem_cons_self _ _)⟩
      · obtain ⟨ha, hb⟩ := ih2 id0 h0
        refine ⟨ha, ?_⟩
        rcases hb with hb | hb
        · exact Or.inl (List.mem_cons_of_mem _ hb)
        · exact Or.inr hb
    · intro id0 h0
      rcases List.mem_cons.mp h0 with rfl | h0
      · exact List.mem_cons_self _ _
      · exact List.mem_cons_of_mem _ (ih3 id0 h0)
    · intro id0 h0
      exact List.mem_cons_of_mem _ (ih4 id0 h0)
  | start s id ts hr hm ih =>
    obtain ⟨ih1, ih2, ih3, ih4⟩ := ih
    refine ⟨?_, ?_, ?_, ?_⟩
    · intro id0 e h0
      by_cases hcase : id0 = id
      · subst hcase
        rw [dictGet_set_self] at h0
        injection h0 with h0
        subst h0
        exact ⟨ih3 id0 hm, entryConsistent_procEntry ts, Or.inl rfl⟩
      · rw [dictGet_set_ne _ _ _ _ hcase] at h0
        exact ih1 id0 e h0
    · intro id0 h0
      obtain ⟨ha, hb⟩ := ih2 id0 h0
      refine ⟨ha, ?_⟩
      by_cases hcase : id0 = id
      · subst hcase
        right
        rw [dictGet_set_self]
        rfl
      · rcases hb with hb | hb
        · exact Or.inl ((List.mem_erase_of_ne hcase).mpr hb)
        · right
          rw [dictGet_set_ne _ _ _ _ hcase]
          exact hb
    · intro id0 h0
      exact ih3 id0 (List.erase_subset _ _ h0)
    · intro id0 h0
      rcases List.mem_cons.mp h0 with rfl | h0
      · exact ih3 id0 hm
      · exact ih4 id0 h0
  | finish s id e hr hm ht hc ih =>
    obtain ⟨ih1, ih2, ih3, ih4⟩ := ih
    refine ⟨?_, ?_, ?_, ?_⟩
    · intro id0 e0 h0
      by_cases hcase : id0 = id
      · subst hcase
        rw [dictGet_set_self] at h0
        injection h0 with h0
        subst h0
        exact ⟨ih4 id0 hm, hc, Or.inr ht⟩
      · rw [dictGet_set_ne _ _ _ _ hcase] at h0
        exact ih1 id0 e0 h0
    · intro id0 h0
      obtain ⟨ha, hb⟩ := ih2 id0 h0
      refine ⟨ha, ?_⟩
      by_cases hcase : id0 = id
      · subst hcase
        right
        rw [dictGet_set_self]
        rfl
      · rcases hb with hb | hb
        · exact Or.inl hb
        · right
          rw [dictGet_set_ne _ _ _ _ hcase]
          exact hb
    · intro id0 h0
      exact ih3 id0 h0
    · intro id0 h0
      exact ih4 id0 (List.erase_subset _ _ h0)

/-- Claim C8, counterexample: a /result query for an already-issued task
id can return 404.  After the /solve handler has returned the id, the
registry write {"status": "processing"} happens only in the first
execution slice of the spawned solve_cloudflare_task; in the reachable
state where that slice has not yet run, get_result answers 404 for the
issued id — registration is not performed before scheduling. -/
theorem result_404_window :
    ∃ s : Sys, Reach 10 s ∧ "a" ∈ s.issued
      ∧ get_result s.results (some "a") = .notFound "Task ID does not exist" :=
  ⟨_, Reach.submit _ "a" Reach.init (by decide) (by decide) (by decide),
    by decide, rfl⟩

/-- Claim C8 (amended): in every reachable state, /result answers 400
when the id parameter is missing; 404 for an id that was never issued;
and for an issued id whose first task slice has already run it never
answers 404 — the registry holds an entry for it, and the answer is 202
while the entry is processing and 200 with the stored terminal payload
otherwise.  In the window between acceptance and the task's first slice,
an issued id still answers 404. -/
theorem result_endpoint_amended (maxT : Nat) (s : Sys) (h : Reach maxT s) :
    get_result s.results none = .badReq "id parameter is required"
    ∧ (∀ id : String, id ≠ "" → id ∉ s.issued →
        get_result s.results (some id) = .notFound "Task ID does not exist")
    ∧ (∀ id : String, id ∈ s.issued → id ∉ s.scheduledIds →
        ∃ e, dictGet s.results id = some e ∧ entryConsistent e = true
          ∧ ((e.status = "processing"
              ∧ get_result s.results (some id) =
                  .processingResp "Task is being processed")
            ∨ (isTerminal e = true
              ∧ get_result s.results (some id) = .okResp e))) := by
  obtain ⟨inv1, inv2, inv3, inv4⟩ := reach_invariant maxT s h
  refine ⟨rfl, ?_, ?_⟩
  · intro id hne hni
    unfold get_result
    rw [if_neg (by simp [strFalsy_of_ne id hne])]
    simp only [Option.getD_some]
    cases hd : dictGet s.results id with
    | none => rfl
    | some e =>
      exact absurd (inv1 id e hd).1 hni
  · intro id hiss hns
    obtain ⟨hne, hb⟩ := inv2 id hiss
    rcases hb with hb | hb
    · exact absurd hb hns
    · cases hd : dictGet s.results id with
      | none => rw [hd] at hb; cases hb
      | some e =>
        obtain ⟨-, hcons, hshape⟩ := inv1 id e hd
        refine ⟨e, rfl, hcons, ?_⟩
        rcases hshape with hp | ht
        · left
          refine ⟨hp, ?_⟩
          unfold get_result
          rw [if_neg (by simp [strFalsy_of_ne id hne])]
          simp only [Option.getD_some]
          rw [hd]
          simp [hp]
        · right
          refine ⟨ht, ?_⟩
          have hnp : (e.status == "processing") = false := by
            rcases Bool.or_eq_true_iff.mp ht with hs | hs
            · rw [beq_iff_eq] at hs
              rw [hs]
              rfl
            · rw [beq_iff_eq] at hs
              rw [hs]
              rfl
          unfold get_result
          rw [if_neg (by simp [strFalsy_of_ne id hne])]
          simp only [Option.getD_some]
          rw [hd]
          simp [hnp]

/-- In the empty initial state, /result with no id answers 400. -/
theorem result_endpoint_amended_witness :
    get_result (⟨[], [], [], []⟩ : Sys).results none =
      .badReq "id parameter is required" :=
  (result_endpoint_amended 10 ⟨[], [], [], []⟩ Reach.init).1

end CF
